import Mathlib

/-!
Verification development for the Rieltorbot core (src/userbot.py):
a shallow embedding of the lead-classification engine (`LeadAnalyzer`),
the deduplicating persistence layer (`LeadStorage`), and the
notification-target resolution, together with theorems settling the
specification's claims about them.

Text is modelled as `List Char` after normalization.  Python's
`str.strip` / `str.lower` are embedded for the character ranges the
program actually works with (ASCII and Cyrillic); the regular-expression
heuristics of `LeadAnalyzer` are embedded as explicit scanning functions
whose success condition matches `re.search` on the source's patterns.
-/

namespace Rieltorbot

/-- Python whitespace characters recognised by `str.strip` (ASCII range:
space, tab, newline, carriage return, vertical tab, form feed). -/
def isPySpace (c : Char) : Bool :=
  c == ' ' || c == '\t' || c == '\n' || c == '\r' || c.toNat == 11 || c.toNat == 12

/-- Python `str.lower`, restricted to the ASCII and Cyrillic ranges that
the program's keyword lists and messages use: `A`-`Z`, `А`-`Я` (U+0410..U+042F)
and `Ё` (U+0401). Other characters are unchanged. -/
def lowerChar (c : Char) : Char :=
  if 65 ≤ c.toNat && c.toNat ≤ 90 then Char.ofNat (c.toNat + 32)
  else if 0x410 ≤ c.toNat && c.toNat ≤ 0x42F then Char.ofNat (c.toNat + 32)
  else if c.toNat == 0x401 then Char.ofNat 0x451
  else c

/-- `str.strip()`: drop leading and trailing whitespace. -/
def stripChars (l : List Char) : List Char :=
  ((l.dropWhile isPySpace).reverse.dropWhile isPySpace).reverse

/-- `(text or "").strip().lower()` from `LeadAnalyzer.analyze` (line 63):
strip first, then lowercase.  (For a `str` argument, `text or ""` is the
text itself when non-empty and `""` otherwise; both normalize the same.) -/
def normalizeText (s : String) : List Char :=
  (stripChars s.data).map lowerChar

/-- `needle` is a prefix of `hay` (character lists). -/
def subPre : List Char → List Char → Bool
  | [], _ => true
  | _ :: _, [] => false
  | a :: as, b :: bs => a == b && subPre as bs

/-- Python substring containment `needle in hay`. -/
def occursIn : List Char → List Char → Bool
  | n, [] => n.isEmpty
  | n, c :: cs => subPre n (c :: cs) || occursIn n cs

/-- `kw in cleaned` for a keyword given as a `String`. -/
def occurs (kw : String) (cl : List Char) : Bool :=
  occursIn kw.data cl

/-! ### Regex heuristics

The four heuristic signals of `LeadAnalyzer.analyze` (lines 73-80) use
`re.search`; each is embedded as a scanner whose success condition is the
existence of a match of the source pattern.  `\w` (word characters, used
by the `\b` boundaries and the e-mail pattern) is embedded for the
alphabets the program works over: ASCII alphanumerics, underscore,
Cyrillic letters (U+0400..U+04FF) and the superscript-two sign U+00B2
(alphanumeric for Python's `re`). -/

/-- Python `\d` on the program's texts: ASCII decimal digit. -/
def isDigitChar (c : Char) : Bool :=
  48 ≤ c.toNat && c.toNat ≤ 57

/-- Python `\w` restricted to the program's alphabets. -/
def isWordChar (c : Char) : Bool :=
  (48 ≤ c.toNat && c.toNat ≤ 57) || (65 ≤ c.toNat && c.toNat ≤ 90) ||
  (97 ≤ c.toNat && c.toNat ≤ 122) || c == '_' ||
  (0x400 ≤ c.toNat && c.toNat ≤ 0x4FF) || c.toNat == 0xB2

/-- `[\s\-()]`, the separators tolerated inside a phone number. -/
def isPhoneSep (c : Char) : Bool :=
  isPySpace c || c == '-' || c == '(' || c == ')'

/-- The alternation `(?:₽|руб|рублей|р\.)` matching at the head of `l`. -/
def budgetUnit (l : List Char) : Bool :=
  subPre "₽".data l || subPre "руб".data l || subPre "рублей".data l ||
  subPre "р.".data l

/-- After `k` digits have been consumed, can `\d{2,}\s?(?:₽|руб|рублей|р\.)`
finish on `l`?  Either ≥ 2 digits are done and an optional single
whitespace plus a currency unit follows, or another digit is consumed. -/
def budgetTail : List Char → Nat → Bool
  | [], _ => false
  | c :: cs, k =>
    (2 ≤ k && (budgetUnit (c :: cs) || (isPySpace c && budgetUnit cs))) ||
    (isDigitChar c && budgetTail cs (k + 1))

/-- `re.search(r"\b\d{2,}\s?(?:₽|руб|рублей|р\.)", cleaned)`: somewhere in
the text, a word boundary followed by two or more digits, an optional
whitespace and a currency unit.  `prevWord` records whether the previous
character is a word character (no boundary). -/
def budgetSearch : List Char → Bool → Bool
  | [], _ => false
  | c :: cs, prevWord =>
    (!prevWord && isDigitChar c && budgetTail cs 1) ||
    budgetSearch cs (isWordChar c)

/-- A word boundary `\b` holds after the match, i.e. at the head of `l`
(the match ends in a word character in every alternative). -/
def boundaryAt : List Char → Bool
  | [] => true
  | c :: _ => !isWordChar c

/-- The alternation `(?:м²|кв\.м|м2)\b` matching at the head of `l`. -/
def areaUnit : List Char → Bool
  | l =>
    (subPre "м²".data l && boundaryAt (l.drop 2)) ||
    (subPre "кв.м".data l && boundaryAt (l.drop 4)) ||
    (subPre "м2".data l && boundaryAt (l.drop 2))

/-- After `k` digits, can `\d{1,4}\s?(?:м²|кв\.м|м2)\b` finish on `l`? -/
def areaTail : List Char → Nat → Bool
  | [], _ => false
  | c :: cs, k =>
    (1 ≤ k && k ≤ 4 && (areaUnit (c :: cs) || (isPySpace c && areaUnit cs))) ||
    (isDigitChar c && k < 4 && areaTail cs (k + 1))

/-- `re.search(r"\b\d{1,4}\s?(?:м²|кв\.м|м2)\b", cleaned)`. -/
def areaSearch : List Char → Bool → Bool
  | [], _ => false
  | c :: cs, prevWord =>
    (!prevWord && isDigitChar c && areaTail cs 1) ||
    areaSearch cs (isWordChar c)

/-- `PHONE_REGEX.search`: the pattern
`(?:(?:\+7|7|8)[\s\-()]*)?(?:\d[\s\-()]*){10,11}` matches somewhere iff
the text has a chain of at least 10 digits separated only by `[\s\-()]`
characters (the optional prefix itself begins with a digit, so it never
enables an otherwise impossible match).  `k` counts digits of the chain
in progress. -/
def phoneScan : List Char → Nat → Bool
  | [], k => 10 ≤ k
  | c :: cs, k =>
    10 ≤ k ||
    (if isDigitChar c then phoneScan cs (k + 1)
     else if isPhoneSep c && 0 < k then phoneScan cs k
     else phoneScan cs 0)

/-- `[\w.+\-]`, the local-part characters of `EMAIL_REGEX`. -/
def emailLocalChar (c : Char) : Bool :=
  isWordChar c || c == '.' || c == '+' || c == '-'

/-- `[\w\-]`, the domain characters before the dot. -/
def emailDomChar (c : Char) : Bool :=
  isWordChar c || c == '-'

/-- `[\w.\-]`, the characters allowed after the domain dot (unlike the
local-part class, `'+'` is not among them). -/
def emailTailChar (c : Char) : Bool :=
  isWordChar c || c == '.' || c == '-'

/-- After `@` and at least one domain character, match `[\w\-]*\.[\w.\-]`:
a run of domain characters, then a literal dot followed by at least one
`[\w.\-]` character. -/
def emailDomTail : List Char → Bool
  | [] => false
  | c :: cs =>
    if emailDomChar c then emailDomTail cs
    else if c == '.' then
      match cs with
      | [] => false
      | d :: _ => emailTailChar d
    else false

/-- `[\w\-]+\.[\w.\-]+` matching at the head of `l`. -/
def emailAfterAt : List Char → Bool
  | [] => false
  | c :: cs => emailDomChar c && emailDomTail cs

/-- `EMAIL_REGEX.search`: `[\w.+\-]+@[\w\-]+\.[\w.\-]+` matches somewhere
iff some `@` is preceded by a local-part character and followed by a
non-empty domain run, a dot and a tail character.  `prev` is the
character before the current position. -/
def emailScan : List Char → Option Char → Bool
  | [], _ => false
  | c :: cs, prev =>
    (c == '@' && (match prev with
      | some p => emailLocalChar p
      | none => false) && emailAfterAt cs) ||
    emailScan cs (some c)

/-! ### LeadAnalyzer -/

/-- `LeadDecision` (line 28): the analyzer's structured result. -/
structure LeadDecision where
  is_lead : Bool
  reasons : List String
  category : String
deriving DecidableEq, Repr

/-- The state of a constructed `LeadAnalyzer` (lines 41-56): normalized
keyword lists and the three rule settings.  `min_details_required` is an
`Int` as in the source (`int(...)`, clamped to ≥ 0 by the constructor). -/
structure LeadAnalyzer where
  buy_keywords : List String
  sell_keywords : List String
  urgency_keywords : List String
  realtor_keywords : List String
  detail_keywords : List String
  require_explicit_intent : Bool
  min_details_required : Int
  contact_bonus : Bool
deriving DecidableEq, Repr

/-- `LeadAnalyzer._normalize_list` (lines 58-60): keep the non-strings
out (all inputs are strings here), strip and lowercase each entry, drop
entries that strip to empty. -/
def normalizeKeywordList (values : List String) : List String :=
  (values.filter (fun v => !(stripChars v.data).isEmpty)).map
    (fun v => String.mk ((stripChars v.data).map lowerChar))

/-- The clamp at lines 55-56: a negative `min_details_required` becomes 0. -/
def clampMinDetails (n : Int) : Int :=
  if n < 0 then 0 else n

/-- `buy_hits` (line 67): configured buy keywords occurring in the text. -/
def buyHits (a : LeadAnalyzer) (cl : List Char) : List String :=
  a.buy_keywords.filter (fun kw => occurs kw cl)

/-- `sell_hits` (line 68). -/
def sellHits (a : LeadAnalyzer) (cl : List Char) : List String :=
  a.sell_keywords.filter (fun kw => occurs kw cl)

/-- `urgency_hits` (line 69). -/
def urgencyHits (a : LeadAnalyzer) (cl : List Char) : List String :=
  a.urgency_keywords.filter (fun kw => occurs kw cl)

/-- `realtor_hits` (line 70). -/
def realtorHits (a : LeadAnalyzer) (cl : List Char) : List String :=
  a.realtor_keywords.filter (fun kw => occurs kw cl)

/-- `detail_hits` (line 71). -/
def detailHits (a : LeadAnalyzer) (cl : List Char) : List String :=
  a.detail_keywords.filter (fun kw => occurs kw cl)

/-- `intent_hits = buy_hits + sell_hits` (line 83). -/
def intentHits (a : LeadAnalyzer) (cl : List Char) : List String :=
  buyHits a cl ++ sellHits a cl

/-- `has_budget` (lines 73-75): the budget regex, or any of the generic
currency/budget tokens. -/
def hasBudget (cl : List Char) : Bool :=
  budgetSearch cl false ||
  (["бюджет", "₽", "руб", "рублей"].any (fun t => occurs t cl))

/-- `has_location` (line 76). -/
def hasLocation (cl : List Char) : Bool :=
  ["район", "метро", "ул.", "улица", "город", "жк", "этаж"].any
    (fun t => occurs t cl)

/-- `has_area` (lines 77-79): the area regex, or any generic area token. -/
def hasArea (cl : List Char) : Bool :=
  areaSearch cl false ||
  (["площадь", "м²", "кв.м"].any (fun t => occurs t cl))

/-- `has_contact` (line 80): phone or e-mail pattern. -/
def hasContact (cl : List Char) : Bool :=
  phoneScan cl 0 || emailScan cl none

/-- `details_score = sum([has_budget, has_location, has_area])` (line 82). -/
def detailsScore (cl : List Char) : Nat :=
  (if hasBudget cl then 1 else 0) + (if hasLocation cl then 1 else 0) +
  (if hasArea cl then 1 else 0)

/-- Category resolution (lines 85-94). -/
def categoryOf (a : LeadAnalyzer) (cl : List Char) : String :=
  if !(buyHits a cl).isEmpty && (sellHits a cl).isEmpty then "buy"
  else if !(sellHits a cl).isEmpty && (buyHits a cl).isEmpty then "sell"
  else if !(buyHits a cl).isEmpty && !(sellHits a cl).isEmpty then "mixed"
  else if !(realtorHits a cl).isEmpty then "realtor_help"
  else "none"

/-- Reason assembly (lines 96-114): one count tag per non-empty hit list,
then one flag tag per true heuristic signal, in source order. -/
def reasonsOf (a : LeadAnalyzer) (cl : List Char) : List String :=
  (if (buyHits a cl).isEmpty then []
   else ["buy_keywords:" ++ toString (buyHits a cl).length]) ++
  (if (sellHits a cl).isEmpty then []
   else ["sell_keywords:" ++ toString (sellHits a cl).length]) ++
  (if (urgencyHits a cl).isEmpty then []
   else ["urgency_keywords:" ++ toString (urgencyHits a cl).length]) ++
  (if (realtorHits a cl).isEmpty then []
   else ["realtor_keywords:" ++ toString (realtorHits a cl).length]) ++
  (if (detailHits a cl).isEmpty then []
   else ["detail_keywords:" ++ toString (detailHits a cl).length]) ++
  (if hasBudget cl then ["has_budget"] else []) ++
  (if hasLocation cl then ["has_location"] else []) ++
  (if hasArea cl then ["has_area"] else []) ++
  (if hasContact cl then ["has_contact"] else [])

/-- The guard of gate 1 (line 116): explicit intent required but neither
intent nor realtor hits. -/
def noIntentGate (a : LeadAnalyzer) (cl : List Char) : Bool :=
  a.require_explicit_intent && (intentHits a cl).isEmpty &&
  (realtorHits a cl).isEmpty

/-- The guard of gate 2 (line 119): too few detail signals and no contact. -/
def insufficientGate (a : LeadAnalyzer) (cl : List Char) : Bool :=
  decide ((detailsScore cl : Int) < a.min_details_required) && !hasContact cl

/-- `lead_score` (lines 122-132). -/
def leadScore (a : LeadAnalyzer) (cl : List Char) : Int :=
  (if !(intentHits a cl).isEmpty then 2 else 0) +
  (if 0 < detailsScore cl then (detailsScore cl : Int) else 0) +
  (if !(urgencyHits a cl).isEmpty then 1 else 0) +
  (if !(realtorHits a cl).isEmpty then 1 else 0) +
  (if a.contact_bonus && hasContact cl then 1 else 0)

/-- `analyze` on a non-empty cleaned text (lines 67-134). -/
def analyzeCleaned (a : LeadAnalyzer) (cl : List Char) : LeadDecision :=
  if noIntentGate a cl then
    ⟨false, reasonsOf a cl ++ ["no_intent"], categoryOf a cl⟩
  else if insufficientGate a cl then
    ⟨false, reasonsOf a cl ++ ["insufficient_details"], categoryOf a cl⟩
  else
    ⟨3 ≤ leadScore a cl, reasonsOf a cl, categoryOf a cl⟩

/-- `LeadAnalyzer.analyze` (lines 62-134). -/
def analyze (a : LeadAnalyzer) (text : String) : LeadDecision :=
  let cl := normalizeText text
  if cl.isEmpty then ⟨false, ["empty_message"], "none"⟩
  else analyzeCleaned a cl

/-- `analyze` on a possibly absent (`None`) argument: `text or ""` turns
an absent text into the empty string before normalization. -/
def analyzeOpt (a : LeadAnalyzer) (text : Option String) : LeadDecision :=
  analyze a (text.getD "")

/-! ### SHA-256

`insert_message` fingerprints the normalized message text with
`hashlib.sha256(...).hexdigest()` (line 182).  The hash is embedded in
full; 32-bit words are `Nat`s reduced modulo `2 ^ 32`. -/

/-- Right rotation of a 32-bit word. -/
def rotr32 (n x : Nat) : Nat :=
  ((x >>> n) ||| (x <<< (32 - n))) % 2 ^ 32

/-- The SHA-256 round constants (the 32 fractional-part bits of the cube
roots of the first 64 primes), written in decimal. -/
def shaK : List Nat :=
  [1116352408, 1899447441, 3049323471, 3921009573, 961987163, 1508970993,
   2453635748, 2870763221, 3624381080, 310598401, 607225278, 1426881987,
   1925078388, 2162078206, 2614888103, 3248222580, 3835390401, 4022224774,
   264347078, 604807628, 770255983, 1249150122, 1555081692, 1996064986,
   2554220882, 2821834349, 2952996808, 3210313671, 3336571891, 3584528711,
   113926993, 338241895, 666307205, 773529912, 1294757372, 1396182291,
   1695183700, 1986661051, 2177026350, 2456956037, 2730485921, 2820302411,
   3259730800, 3345764771, 3516065817, 3600352804, 4094571909, 275423344,
   430227734, 506948616, 659060556, 883997877, 958139571, 1322822218,
   1537002063, 1747873779, 1955562222, 2024104815, 2227730452, 2361852424,
   2428436474, 2756734187, 3204031479, 3329325298]

/-- The SHA-256 initial hash value (the 32 fractional-part bits of the
square roots of the first 8 primes), written in decimal. -/
def shaH0 : List Nat :=
  [1779033703, 3144134277, 1013904242, 2773480762, 1359893119, 2600822924,
   528734635, 1541459225]

/-- Append one word of the message schedule. -/
def shaScheduleStep (w : List Nat) : List Nat :=
  let i := w.length
  let x15 := w.getD (i - 15) 0
  let x2 := w.getD (i - 2) 0
  let s0 := rotr32 7 x15 ^^^ rotr32 18 x15 ^^^ (x15 >>> 3)
  let s1 := rotr32 17 x2 ^^^ rotr32 19 x2 ^^^ (x2 >>> 10)
  w ++ [(w.getD (i - 16) 0 + s0 + w.getD (i - 7) 0 + s1) % 2 ^ 32]

/-- Extend the 16 block words to the 64-entry message schedule. -/
def shaSchedule (w : List Nat) : List Nat :=
  (List.range 48).foldl (fun acc _ => shaScheduleStep acc) w

/-- One compression round; the state is the word list `[a,b,c,d,e,f,g,h]`. -/
def shaRound (st : List Nat) (k : Nat) (w : Nat) : List Nat :=
  let a := st.getD 0 0
  let b := st.getD 1 0
  let c := st.getD 2 0
  let d := st.getD 3 0
  let e := st.getD 4 0
  let f := st.getD 5 0
  let g := st.getD 6 0
  let h := st.getD 7 0
  let s1 := rotr32 6 e ^^^ rotr32 11 e ^^^ rotr32 25 e
  let ch := (e &&& f) ^^^ ((e ^^^ (2 ^ 32 - 1)) &&& g)
  let t1 := (h + s1 + ch + k + w) % 2 ^ 32
  let s0 := rotr32 2 a ^^^ rotr32 13 a ^^^ rotr32 22 a
  let maj := (a &&& b) ^^^ (a &&& c) ^^^ (b &&& c)
  let t2 := (s0 + maj) % 2 ^ 32
  [(t1 + t2) % 2 ^ 32, a, b, c, (d + t1) % 2 ^ 32, e, f, g]

/-- Big-endian 32-bit words from a byte list. -/
def bytesToWords : List Nat → List Nat
  | b0 :: b1 :: b2 :: b3 :: rest =>
    (b0 * 2 ^ 24 + b1 * 2 ^ 16 + b2 * 2 ^ 8 + b3) :: bytesToWords rest
  | _ => []

/-- Compress one 64-byte block into the running hash `h`. -/
def shaCompress (h : List Nat) (block : List Nat) : List Nat :=
  let ws := shaSchedule (bytesToWords block)
  let st := (shaK.zip ws).foldl (fun st kw => shaRound st kw.1 kw.2) h
  (h.zip st).map (fun p => (p.1 + p.2) % 2 ^ 32)

/-- Split a byte list into 64-byte chunks. -/
def chunks64 (l : List Nat) : List (List Nat) :=
  if l.isEmpty then []
  else l.take 64 :: chunks64 (l.drop 64)
termination_by l.length
decreasing_by
  simp only [List.length_drop]
  rename_i h
  cases l with
  | nil => simp at h
  | cons a as => simp; omega

/-- The 8-byte big-endian encoding of the message bit length. -/
def be64 (n : Nat) : List Nat :=
  [n >>> 56 % 256, n >>> 48 % 256, n >>> 40 % 256, n >>> 32 % 256,
   n >>> 24 % 256, n >>> 16 % 256, n >>> 8 % 256, n % 256]

/-- SHA-256 padding: `0x80`, zeros to 56 mod 64, then the bit length. -/
def shaPad (m : List Nat) : List Nat :=
  let r := m.length % 64
  let z := if r < 56 then 55 - r else 119 - r
  m ++ [0x80] ++ List.replicate z 0 ++ be64 (8 * m.length % 2 ^ 64)

/-- The SHA-256 digest (eight 32-bit words) of a byte list. -/
def sha256Words (m : List Nat) : List Nat :=
  (chunks64 (shaPad m)).foldl shaCompress shaH0

/-- A lowercase hexadecimal digit. -/
def hexDigit (n : Nat) : Char :=
  if n < 10 then Char.ofNat (48 + n) else Char.ofNat (87 + n)

/-- Eight hex characters of one 32-bit word, big-endian. -/
def wordHex (w : Nat) : List Char :=
  [hexDigit (w >>> 28 % 16), hexDigit (w >>> 24 % 16), hexDigit (w >>> 20 % 16),
   hexDigit (w >>> 16 % 16), hexDigit (w >>> 12 % 16), hexDigit (w >>> 8 % 16),
   hexDigit (w >>> 4 % 16), hexDigit (w % 16)]

/-- `hashlib.sha256(bytes).hexdigest()`. -/
def sha256Hex (m : List Nat) : String :=
  String.mk ((sha256Words m).flatMap wordHex)

/-- UTF-8 bytes of a string, as `Nat`s. -/
def utf8Bytes (s : String) : List Nat :=
  s.toUTF8.toList.map (fun b => b.toNat)

/-- The content fingerprint computed by `insert_message` (line 182):
SHA-256 hex digest of the UTF-8 encoding of the stripped, lowercased
message text. -/
def messageHash (message_text : String) : String :=
  sha256Hex (utf8Bytes (String.mk ((stripChars message_text.data).map lowerChar)))

/-! ### LeadStorage

The `leads` table (lines 145-167) is modelled as the list of its rows in
insertion order; the `UNIQUE(chat_id, message_id)` constraint is the
uniqueness check of `insert_message`.  `sqlite3.IntegrityError` on a
duplicate key is caught in the source and surfaces only as the `false`
return value, so `insert_message` is a total function returning the flag
and the new table state.  `created_at` is carried as the ISO-8601 string
the source stores (`created_at.isoformat()`). -/

/-- One row of the `leads` table (schema at lines 149-162, without the
autoincrement surrogate id, which no claim concerns). -/
structure StoredRow where
  message_id : Int
  chat_id : Int
  user_id : Option Int
  chat_title : String
  message_text : String
  message_hash : String
  category : String
  status : String
  reasons : String
  created_at : String
deriving DecidableEq, Repr

/-- The keyword arguments of `insert_message` (lines 169-181). -/
structure InsertArgs where
  message_id : Int
  chat_id : Int
  user_id : Option Int
  chat_title : String
  message_text : String
  category : String
  status : String
  reasons : List String
  created_at : String
deriving DecidableEq, Repr

/-- The row that a successful `insert_message` appends (lines 184-203):
the arguments plus the computed `message_hash`, with `reasons` joined by
commas. -/
def rowOf (a : InsertArgs) : StoredRow :=
  { message_id := a.message_id
    chat_id := a.chat_id
    user_id := a.user_id
    chat_title := a.chat_title
    message_text := a.message_text
    message_hash := messageHash a.message_text
    category := a.category
    status := a.status
    reasons := String.intercalate "," a.reasons
    created_at := a.created_at }

/-- Whether the table already holds the natural key (chat_id, message_id). -/
def keyPresent (db : List StoredRow) (chat_id message_id : Int) : Bool :=
  db.any (fun r => r.chat_id == chat_id && r.message_id == message_id)

/-- `LeadStorage.insert_message` (lines 169-207): compute the hash, try
to append the row; a violation of `UNIQUE(chat_id, message_id)` is caught
and reported as `false` with the table unchanged. -/
def insert_message (db : List StoredRow) (a : InsertArgs) :
    Bool × List StoredRow :=
  if keyPresent db a.chat_id a.message_id then (false, db)
  else (true, db ++ [rowOf a])

/-- Look up the row stored under a natural key (first match, unique when
every insert went through `insert_message`). -/
def lookupRow (db : List StoredRow) (chat_id message_id : Int) :
    Option StoredRow :=
  db.find? (fun r => r.chat_id == chat_id && r.message_id == message_id)

/-! ### Notification target -/

/-- The `notification` section of the configuration, as
`validate_runtime_config` and `resolve_notification_target` read it:
an optional numeric target and an optional bot-username string. -/
structure NotificationConfig where
  target_telegram_id : Option Int
  target_bot_username : Option String
deriving DecidableEq, Repr

/-- `resolve_notification_target` (lines 247-251): if
`target_bot_username` is truthy (present and non-empty) return it
stripped, otherwise convert `target_telegram_id` to an integer.  The
result is `Int ⊕ String`; a missing numeric target on the fallback path
(a `KeyError`/`TypeError` in Python) is `none`. -/
def resolve_notification_target (n : NotificationConfig) :
    Option (Int ⊕ String) :=
  match n.target_bot_username with
  | some s =>
    if s ≠ "" then some (Sum.inr (String.mk (stripChars s.data)))
    else n.target_telegram_id.map Sum.inl
  | none => n.target_telegram_id.map Sum.inl

/-! ### Specification-side definitions

Definitions transcribed from the specification's wording, to be compared
with the source-side definitions above. -/

/-- The lead score as the specification words it: 2 if there is any buy
or sell hit, plus `details_score` if positive, plus 1 for any urgency
hit, plus 1 for any realtor hit, plus 1 if the contact bonus is enabled
and a contact is present. -/
def specScore (a : LeadAnalyzer) (cl : List Char) : Int :=
  (if buyHits a cl ≠ [] ∨ sellHits a cl ≠ [] then 2 else 0) +
  (if 0 < detailsScore cl then (detailsScore cl : Int) else 0) +
  (if urgencyHits a cl ≠ [] then 1 else 0) +
  (if realtorHits a cl ≠ [] then 1 else 0) +
  (if a.contact_bonus = true ∧ hasContact cl = true then 1 else 0)

/-- One count tag for a keyword category with at least one hit, in the
form the specification gives: `"<category>_keywords:<count>"`. -/
def specCountTag (category : String) (hits : List String) : List String :=
  if hits.isEmpty then [] else [category ++ "_keywords:" ++ toString hits.length]

/-- One flag tag for a true heuristic signal. -/
def specFlagTag (tag : String) (signal : Bool) : List String :=
  if signal then [tag] else []

/-- The assembled reasons sequence as claim C6 words it: count tags in
the fixed category order buy, sell, urgency, realtor, details, then flag
tags in the fixed order budget, location, area, contact. -/
def claimReasons (a : LeadAnalyzer) (cl : List Char) : List String :=
  specCountTag "buy" (buyHits a cl) ++ specCountTag "sell" (sellHits a cl) ++
  specCountTag "urgency" (urgencyHits a cl) ++
  specCountTag "realtor" (realtorHits a cl) ++
  specCountTag "details" (detailHits a cl) ++
  specFlagTag "has_budget" (hasBudget cl) ++
  specFlagTag "has_location" (hasLocation cl) ++
  specFlagTag "has_area" (hasArea cl) ++
  specFlagTag "has_contact" (hasContact cl)

/-- The reasons sequence of claim C6 amended at the single point the
code forces: the details category's count tag is spelled
`"detail_keywords:<count>"` (singular), as the source writes it. -/
def amendedReasons (a : LeadAnalyzer) (cl : List Char) : List String :=
  specCountTag "buy" (buyHits a cl) ++ specCountTag "sell" (sellHits a cl) ++
  specCountTag "urgency" (urgencyHits a cl) ++
  specCountTag "realtor" (realtorHits a cl) ++
  specCountTag "detail" (detailHits a cl) ++
  specFlagTag "has_budget" (hasBudget cl) ++
  specFlagTag "has_location" (hasLocation cl) ++
  specFlagTag "has_area" (hasArea cl) ++
  specFlagTag "has_contact" (hasContact cl)

/-! ### Concrete instances for witnesses and counterexamples -/

/-- A representative configured analyzer (keyword lists as a default
Russian real-estate configuration would provide them). -/
def sampleAnalyzer : LeadAnalyzer :=
  { buy_keywords := ["куплю", "ищу квартиру", "хочу купить"]
    sell_keywords := ["продам", "продаю"]
    urgency_keywords := ["срочно"]
    realtor_keywords := ["риелтор", "помогите"]
    detail_keywords := ["квартир", "комнат"]
    require_explicit_intent := true
    min_details_required := 1
    contact_bonus := true }

/-- An analyzer with only a details keyword and both gates disabled
(`require_explicit_intent = false`, `min_details_required = 0`), so the
assembled reasons pass unchanged into the decision. -/
def detailOnlyAnalyzer : LeadAnalyzer :=
  { buy_keywords := []
    sell_keywords := []
    urgency_keywords := []
    realtor_keywords := []
    detail_keywords := ["гараж"]
    require_explicit_intent := false
    min_details_required := 0
    contact_bonus := false }

/-- An analyzer requiring two detail signals, for the gate-2 boundary. -/
def strictAnalyzer : LeadAnalyzer :=
  { sampleAnalyzer with min_details_required := 2 }

/-- Arguments of a first insert. -/
def sampleArgs1 : InsertArgs :=
  { message_id := 1
    chat_id := 100
    user_id := some 200
    chat_title := "Test"
    message_text := "продам квартиру, бюджет 8 000 000 рублей"
    category := "sell"
    status := "lead"
    reasons := ["sell_keywords:1", "has_budget"]
    created_at := "2024-01-01T00:00:00+00:00" }

/-- A duplicate of `sampleArgs1`'s natural key carrying different field
values. -/
def sampleArgs2 : InsertArgs :=
  { message_id := 1
    chat_id := 100
    user_id := some 999
    chat_title := "Other"
    message_text := "другой текст"
    category := "none"
    status := "not_lead"
    reasons := []
    created_at := "2024-02-02T00:00:00+00:00" }

/-- A row with a different natural key but the same message text as
`sampleArgs1`. -/
def sampleArgs3 : InsertArgs :=
  { sampleArgs1 with message_id := 2, chat_id := 101 }

/-- A notification section with both a numeric target and a handle. -/
def sampleNotification : NotificationConfig :=
  { target_telegram_id := some 123456
    target_bot_username := some " @my_leads_bot " }

/-! ## Helper lemmas -/

lemma data_head_append (b t : String) (d : Char) (hb : b.data.head? = some d) :
    (b ++ t).data.head? = some d := by
  rw [String.data_append, List.head?_append, hb]; rfl

lemma analyze_nonempty (a : LeadAnalyzer) (t : String)
    (h : normalizeText t ≠ []) :
    analyze a t = analyzeCleaned a (normalizeText t) := by
  unfold analyze
  simp only [List.isEmpty_eq_false.mpr h]
  rfl

lemma insert_fresh (db : List StoredRow) (a : InsertArgs)
    (h : keyPresent db a.chat_id a.message_id = false) :
    insert_message db a = (true, db ++ [rowOf a]) := by
  unfold insert_message
  rw [h]
  simp

lemma keyPresent_append (db : List StoredRow) (r : StoredRow) (c m : Int) :
    keyPresent (db ++ [r]) c m =
      (keyPresent db c m || (r.chat_id == c && r.message_id == m)) := by
  unfold keyPresent
  rw [List.any_append]
  simp [List.any_cons]

/-! ## Claims about the storage layer -/

/-- C1: inserting a row whose (chat_id, message_id) pair is new returns
`true`; a second insert with the same pair returns `false`, leaves the
table unchanged (the stored row keeps the first insert's values even
when the second call passed different values), and — being a total
function — raises no error to the caller. -/
theorem C1_duplicate_insert (db : List StoredRow) (a1 a2 : InsertArgs)
    (hfresh : keyPresent db a1.chat_id a1.message_id = false)
    (hc : a2.chat_id = a1.chat_id) (hm : a2.message_id = a1.message_id) :
    (insert_message db a1).1 = true ∧
    (insert_message (insert_message db a1).2 a2).1 = false ∧
    (insert_message (insert_message db a1).2 a2).2 = (insert_message db a1).2 ∧
    lookupRow (insert_message db a1).2 a1.chat_id a1.message_id
      = some (rowOf a1) := by
  have h1 : insert_message db a1 = (true, db ++ [rowOf a1]) :=
    insert_fresh db a1 hfresh
  have h2 : keyPresent (db ++ [rowOf a1]) a2.chat_id a2.message_id = true := by
    rw [keyPresent_append, hc, hm, hfresh]
    simp [rowOf]
  have h3 : insert_message (db ++ [rowOf a1]) a2 = (false, db ++ [rowOf a1]) := by
    unfold insert_message
    rw [h2]
    simp
  have h4 : lookupRow (db ++ [rowOf a1]) a1.chat_id a1.message_id
      = some (rowOf a1) := by
    unfold lookupRow
    rw [List.find?_append]
    have hnone : List.find?
        (fun r => r.chat_id == a1.chat_id && r.message_id == a1.message_id) db
        = none := by
      rw [List.find?_eq_none]
      intro x hx hpx
      have := (List.any_eq_false.mp hfresh) x hx
      exact this hpx
    rw [hnone]
    simp [List.find?_cons, rowOf]
  rw [h1]
  exact ⟨rfl, by rw [h3], by rw [h3], h4⟩

/-- C8: two inserts whose natural keys differ in at least one component
but whose message text is identical both return `true`, both rows
persist, and both stored rows carry the same `message_hash`, the SHA-256
hex digest of the stripped, lowercased message text. -/
theorem C8_distinct_keys (db : List StoredRow) (a1 a2 : InsertArgs)
    (hkey : a1.chat_id ≠ a2.chat_id ∨ a1.message_id ≠ a2.message_id)
    (h1 : keyPresent db a1.chat_id a1.message_id = false)
    (h2 : keyPresent db a2.chat_id a2.message_id = false)
    (htext : a1.message_text = a2.message_text) :
    (insert_message db a1).1 = true ∧
    (insert_message (insert_message db a1).2 a2).1 = true ∧
    (insert_message (insert_message db a1).2 a2).2
      = db ++ [rowOf a1, rowOf a2] ∧
    (rowOf a1).message_hash = (rowOf a2).message_hash ∧
    (rowOf a1).message_hash
      = sha256Hex (utf8Bytes
          (String.mk ((stripChars a1.message_text.data).map lowerChar))) := by
  have hi1 : insert_message db a1 = (true, db ++ [rowOf a1]) :=
    insert_fresh db a1 h1
  have hrow : ((rowOf a1).chat_id == a2.chat_id
      && (rowOf a1).message_id == a2.message_id) = false := by
    rcases hkey with hk | hk
    · have : ((rowOf a1).chat_id == a2.chat_id) = false := by
        simp [rowOf]
        exact fun h => hk h
      simp [this]
    · have : ((rowOf a1).message_id == a2.message_id) = false := by
        simp [rowOf]
        exact fun h => hk h
      simp [this]
  have h2' : keyPresent (db ++ [rowOf a1]) a2.chat_id a2.message_id = false := by
    rw [keyPresent_append, h2, hrow]
    rfl
  have hi2 : insert_message (db ++ [rowOf a1]) a2
      = (true, (db ++ [rowOf a1]) ++ [rowOf a2]) :=
    insert_fresh (db ++ [rowOf a1]) a2 h2'
  have hhash : (rowOf a1).message_hash = (rowOf a2).message_hash := by
    simp [rowOf, messageHash, htext]
  rw [hi1]
  refine ⟨rfl, by rw [hi2], ?_, hhash, rfl⟩
  rw [hi2]
  simp

/-! ## Claim about the notification target -/

/-- C10: when both a non-empty bot-username handle and a numeric target
are configured, resolution returns the stripped handle, and a numeric
result can only arise when the handle is absent or empty. -/
theorem C10_resolve_target (n : NotificationConfig) (s : String) (i : Int)
    (hu : n.target_bot_username = some s) (hs : s ≠ "")
    (_hi : n.target_telegram_id = some i) :
    resolve_notification_target n
      = some (Sum.inr (String.mk (stripChars s.data))) ∧
    ∀ m : NotificationConfig, ∀ j : Int,
      resolve_notification_target m = some (Sum.inl j) →
      m.target_bot_username = none ∨ m.target_bot_username = some "" := by
  constructor
  · unfold resolve_notification_target
    rw [hu]
    simp [hs]
  · intro m j h
    unfold resolve_notification_target at h
    cases hm : m.target_bot_username with
    | none => exact Or.inl rfl
    | some s' =>
      rw [hm] at h
      by_cases hs' : s' = ""
      · exact Or.inr (by rw [hs'])
      · simp [hs'] at h

/-! ## Claims about the classifier -/

lemma analyzeCleaned_category (a : LeadAnalyzer) (cl : List Char) :
    (analyzeCleaned a cl).category = categoryOf a cl := by
  unfold analyzeCleaned
  split
  · rfl
  · split <;> rfl

lemma reasonsOf_head (a : LeadAnalyzer) (cl : List Char) :
    ∀ x ∈ reasonsOf a cl, x.data.head? ≠ some 'n' ∧ x.data.head? ≠ some 'i' := by
  intro x hx
  unfold reasonsOf at hx
  simp only [List.mem_append] at hx
  rcases hx with ((((((((hx | hx) | hx) | hx) | hx) | hx) | hx) | hx) | hx)
  · revert hx
    split
    · intro hx; simp at hx
    · intro hx
      simp only [List.mem_singleton] at hx
      subst hx
      rw [data_head_append "buy_keywords:" (toString (buyHits a cl).length) 'b' rfl]
      exact ⟨by decide, by decide⟩
  · revert hx
    split
    · intro hx; simp at hx
    · intro hx
      simp only [List.mem_singleton] at hx
      subst hx
      rw [data_head_append "sell_keywords:" (toString (sellHits a cl).length) 's' rfl]
      exact ⟨by decide, by decide⟩
  · revert hx
    split
    · intro hx; simp at hx
    · intro hx
      simp only [List.mem_singleton] at hx
      subst hx
      rw [data_head_append "urgency_keywords:" (toString (urgencyHits a cl).length) 'u' rfl]
      exact ⟨by decide, by decide⟩
  · revert hx
    split
    · intro hx; simp at hx
    · intro hx
      simp only [List.mem_singleton] at hx
      subst hx
      rw [data_head_append "realtor_keywords:" (toString (realtorHits a cl).length) 'r' rfl]
      exact ⟨by decide, by decide⟩
  · revert hx
    split
    · intro hx; simp at hx
    · intro hx
      simp only [List.mem_singleton] at hx
      subst hx
      rw [data_head_append "detail_keywords:" (toString (detailHits a cl).length) 'd' rfl]
      exact ⟨by decide, by decide⟩
  · revert hx
    split
    · intro hx
      simp only [List.mem_singleton] at hx
      subst hx
      exact ⟨by decide, by decide⟩
    · intro hx; simp at hx
  · revert hx
    split
    · intro hx
      simp only [List.mem_singleton] at hx
      subst hx
      exact ⟨by decide, by decide⟩
    · intro hx; simp at hx
  · revert hx
    split
    · intro hx
      simp only [List.mem_singleton] at hx
      subst hx
      exact ⟨by decide, by decide⟩
    · intro hx; simp at hx
  · revert hx
    split
    · intro hx
      simp only [List.mem_singleton] at hx
      subst hx
      exact ⟨by decide, by decide⟩
    · intro hx; simp at hx

lemma no_intent_not_assembled (a : LeadAnalyzer) (cl : List Char) :
    "no_intent" ∉ reasonsOf a cl :=
  fun h => (reasonsOf_head a cl _ h).1 rfl

lemma insufficient_not_assembled (a : LeadAnalyzer) (cl : List Char) :
    "insufficient_details" ∉ reasonsOf a cl :=
  fun h => (reasonsOf_head a cl _ h).2 rfl

lemma leadScore_eq_specScore (a : LeadAnalyzer) (cl : List Char) :
    leadScore a cl = specScore a cl := by
  unfold leadScore specScore
  by_cases hb : buyHits a cl = [] <;> by_cases hs : sellHits a cl = [] <;>
    by_cases hu : urgencyHits a cl = [] <;> by_cases hr : realtorHits a cl = [] <;>
    simp [intentHits, hb, hs, hu, hr, Bool.and_eq_true]

/-- C5: the decision's category follows the buy / sell / mixed /
realtor_help / none priority of the keyword hits, and is the computed
category on every branch of `analyze`, gate rejections included. -/
theorem C5_category_resolution (a : LeadAnalyzer) (t : String)
    (hne : normalizeText t ≠ []) :
    (analyze a t).category = categoryOf a (normalizeText t) ∧
    ((buyHits a (normalizeText t) ≠ [] ∧ sellHits a (normalizeText t) = []) →
      (analyze a t).category = "buy") ∧
    ((sellHits a (normalizeText t) ≠ [] ∧ buyHits a (normalizeText t) = []) →
      (analyze a t).category = "sell") ∧
    ((buyHits a (normalizeText t) ≠ [] ∧ sellHits a (normalizeText t) ≠ []) →
      (analyze a t).category = "mixed") ∧
    ((buyHits a (normalizeText t) = [] ∧ sellHits a (normalizeText t) = [] ∧
      realtorHits a (normalizeText t) ≠ []) →
      (analyze a t).category = "realtor_help") ∧
    ((buyHits a (normalizeText t) = [] ∧ sellHits a (normalizeText t) = [] ∧
      realtorHits a (normalizeText t) = []) →
      (analyze a t).category = "none") := by
  have hcat : (analyze a t).category = categoryOf a (normalizeText t) := by
    rw [analyze_nonempty a t hne, analyzeCleaned_category]
  refine ⟨hcat, ?_, ?_, ?_, ?_, ?_⟩
  · rintro ⟨h1, h2⟩
    rw [hcat]
    simp [categoryOf, List.isEmpty_eq_false.mpr h1, List.isEmpty_eq_true.mpr h2]
  · rintro ⟨h1, h2⟩
    rw [hcat]
    simp [categoryOf, List.isEmpty_eq_false.mpr h1, List.isEmpty_eq_true.mpr h2]
  · rintro ⟨h1, h2⟩
    rw [hcat]
    simp [categoryOf, List.isEmpty_eq_false.mpr h1, List.isEmpty_eq_false.mpr h2]
  · rintro ⟨h1, h2, h3⟩
    rw [hcat]
    simp [categoryOf, List.isEmpty_eq_true.mpr h1, List.isEmpty_eq_true.mpr h2,
      List.isEmpty_eq_false.mpr h3]
  · rintro ⟨h1, h2, h3⟩
    rw [hcat]
    simp [categoryOf, List.isEmpty_eq_true.mpr h1, List.isEmpty_eq_true.mpr h2,
      List.isEmpty_eq_true.mpr h3]

/-- C3, counterexample to the claim as stated: with explicit intent
required, the empty text contains zero buy, sell and realtor keywords
and is a non-lead, but its reason is `empty_message` — `no_intent` is
not appended. -/
theorem C3_counterexample :
    sampleAnalyzer.require_explicit_intent = true ∧
    buyHits sampleAnalyzer (normalizeText "") = [] ∧
    sellHits sampleAnalyzer (normalizeText "") = [] ∧
    realtorHits sampleAnalyzer (normalizeText "") = [] ∧
    (analyze sampleAnalyzer "").is_lead = false ∧
    "no_intent" ∉ (analyze sampleAnalyzer "").reasons ∧
    (analyze sampleAnalyzer "").reasons
      ≠ reasonsOf sampleAnalyzer (normalizeText "") ++ ["no_intent"] := by
  decide

/-- C3, amended with the boundary the counterexample forces: for texts
whose normalized form is non-empty, a configuration requiring explicit
intent turns any text with zero buy, sell and realtor keyword hits into
a non-lead with `no_intent` appended after the assembled reasons and
the computed category preserved. -/
theorem C3_no_intent (a : LeadAnalyzer) (t : String)
    (hreq : a.require_explicit_intent = true)
    (hne : normalizeText t ≠ [])
    (hb : buyHits a (normalizeText t) = [])
    (hs : sellHits a (normalizeText t) = [])
    (hr : realtorHits a (normalizeText t) = []) :
    analyze a t = ⟨false, reasonsOf a (normalizeText t) ++ ["no_intent"],
      categoryOf a (normalizeText t)⟩ := by
  rw [analyze_nonempty a t hne]
  have hg : noIntentGate a (normalizeText t) = true := by
    unfold noIntentGate intentHits
    simp [hreq, hb, hs, hr]
  unfold analyzeCleaned
  rw [hg]
  simp

/-- C6, counterexample to the claim as stated: a text hitting one
details keyword is tagged `detail_keywords:1` by the code, not the
`details_keywords:1` that the claim's `"<category>_keywords:<count>"`
scheme prescribes for the details category. -/
theorem C6_counterexample :
    reasonsOf detailOnlyAnalyzer (normalizeText "гараж")
      ≠ claimReasons detailOnlyAnalyzer (normalizeText "гараж") ∧
    (analyze detailOnlyAnalyzer "гараж").reasons = ["detail_keywords:1"] ∧
    claimReasons detailOnlyAnalyzer (normalizeText "гараж")
      = ["details_keywords:1"] := by
  decide

/-- C6, amended at the single point the counterexample forces: the
assembled reasons are the count tags in the fixed order buy, sell,
urgency, realtor, details — the details tag spelled
`detail_keywords:<count>` — followed by the flag tags in the fixed
order budget, location, area, contact. -/
theorem C6_reason_assembly (a : LeadAnalyzer) (t : String)
    (_hne : normalizeText t ≠ []) :
    reasonsOf a (normalizeText t) = amendedReasons a (normalizeText t) := by
  unfold reasonsOf amendedReasons specCountTag specFlagTag
  rfl

/-- C2: on a non-empty normalized text that passes both gates, the
decision accepts iff the score — 2 for any buy/sell hit, plus the
details score when positive, plus 1 each for urgency hits, realtor hits
and an enabled contact bonus with a contact — reaches 3, and the
returned reasons contain neither gate-rejection tag. -/
theorem C2_scoring (a : LeadAnalyzer) (t : String)
    (hne : normalizeText t ≠ [])
    (hg1 : noIntentGate a (normalizeText t) = false)
    (hg2 : insufficientGate a (normalizeText t) = false) :
    ((analyze a t).is_lead = true ↔ 3 ≤ specScore a (normalizeText t)) ∧
    "no_intent" ∉ (analyze a t).reasons ∧
    "insufficient_details" ∉ (analyze a t).reasons := by
  have ha : analyze a t = ⟨decide (3 ≤ leadScore a (normalizeText t)),
      reasonsOf a (normalizeText t), categoryOf a (normalizeText t)⟩ := by
    rw [analyze_nonempty a t hne]
    unfold analyzeCleaned
    rw [hg1, hg2]
    simp
  rw [ha]
  refine ⟨?_, no_intent_not_assembled a _, insufficient_not_assembled a _⟩
  simp [decide_eq_true_iff, leadScore_eq_specScore]

/-- C4: for a text that reaches gate 2, a details score exactly at the
threshold with no contact passes into scoring; one strictly below the
threshold with no contact is rejected with `insufficient_details` and
the category preserved; and a present contact always passes gate 2. -/
theorem C4_gate2_boundary (a : LeadAnalyzer) (t : String)
    (hne : normalizeText t ≠ [])
    (hg1 : noIntentGate a (normalizeText t) = false) :
    (((detailsScore (normalizeText t) : Int) = a.min_details_required ∧
      hasContact (normalizeText t) = false) →
      analyze a t = ⟨decide (3 ≤ leadScore a (normalizeText t)),
        reasonsOf a (normalizeText t), categoryOf a (normalizeText t)⟩) ∧
    (((detailsScore (normalizeText t) : Int) < a.min_details_required ∧
      hasContact (normalizeText t) = false) →
      analyze a t = ⟨false,
        reasonsOf a (normalizeText t) ++ ["insufficient_details"],
        categoryOf a (normalizeText t)⟩) ∧
    (hasContact (normalizeText t) = true →
      analyze a t = ⟨decide (3 ≤ leadScore a (normalizeText t)),
        reasonsOf a (normalizeText t), categoryOf a (normalizeText t)⟩) := by
  rw [analyze_nonempty a t hne]
  unfold analyzeCleaned
  rw [hg1]
  refine ⟨?_, ?_, ?_⟩
  · rintro ⟨he, hc⟩
    have hig : insufficientGate a (normalizeText t) = false := by
      unfold insufficientGate
      rw [he, hc]
      simp
    rw [hig]
    simp
  · rintro ⟨hlt, hc⟩
    have hig : insufficientGate a (normalizeText t) = true := by
      unfold insufficientGate
      rw [hc]
      simp [hlt]
    rw [hig]
    simp
  · intro hc
    have hig : insufficientGate a (normalizeText t) = false := by
      unfold insufficientGate
      rw [hc]
      simp
    rw [hig]
    simp

/-- C9: under a configuration requiring explicit intent, an accepted
lead's category is buy, sell, mixed or realtor_help — never none. -/
theorem C9_lead_never_uncategorized (a : LeadAnalyzer) (t : String)
    (hreq : a.require_explicit_intent = true)
    (hl : (analyze a t).is_lead = true) :
    ((analyze a t).category = "buy" ∨ (analyze a t).category = "sell" ∨
     (analyze a t).category = "mixed" ∨
     (analyze a t).category = "realtor_help") ∧
    (analyze a t).category ≠ "none" := by
  by_cases hcl : normalizeText t = []
  · have he : analyze a t = ⟨false, ["empty_message"], "none"⟩ := by
      unfold analyze
      simp [hcl]
    rw [he] at hl
    simp at hl
  · rw [analyze_nonempty a t hcl] at hl ⊢
    by_cases h1 : noIntentGate a (normalizeText t) = true
    · simp [analyzeCleaned, h1] at hl
    · simp only [Bool.not_eq_true] at h1
      by_cases h2 : insufficientGate a (normalizeText t) = true
      · simp [analyzeCleaned, h1, h2] at hl
      · simp only [Bool.not_eq_true] at h2
        rw [analyzeCleaned_category a (normalizeText t)]
        by_cases hbE : buyHits a (normalizeText t) = [] <;>
          by_cases hsE : sellHits a (normalizeText t) = [] <;>
          by_cases hrE : realtorHits a (normalizeText t) = []
        · exfalso
          have : noIntentGate a (normalizeText t) = true := by
            simp [noIntentGate, intentHits, hreq, hbE, hsE, hrE]
          rw [this] at h1
          simp at h1
        · have hc : categoryOf a (normalizeText t) = "realtor_help" := by
            simp [categoryOf, List.isEmpty_eq_true.mpr hbE,
              List.isEmpty_eq_true.mpr hsE, List.isEmpty_eq_false.mpr hrE]
          rw [hc]
          exact ⟨Or.inr (Or.inr (Or.inr rfl)), by decide⟩
        · have hc : categoryOf a (normalizeText t) = "sell" := by
            simp [categoryOf, List.isEmpty_eq_true.mpr hbE,
              List.isEmpty_eq_false.mpr hsE]
          rw [hc]
          exact ⟨Or.inr (Or.inl rfl), by decide⟩
        · have hc : categoryOf a (normalizeText t) = "sell" := by
            simp [categoryOf, List.isEmpty_eq_true.mpr hbE,
              List.isEmpty_eq_false.mpr hsE]
          rw [hc]
          exact ⟨Or.inr (Or.inl rfl), by decide⟩
        · have hc : categoryOf a (normalizeText t) = "buy" := by
            simp [categoryOf, List.isEmpty_eq_false.mpr hbE,
              List.isEmpty_eq_true.mpr hsE]
          rw [hc]
          exact ⟨Or.inl rfl, by decide⟩
        · have hc : categoryOf a (normalizeText t) = "buy" := by
            simp [categoryOf, List.isEmpty_eq_false.mpr hbE,
              List.isEmpty_eq_true.mpr hsE]
          rw [hc]
          exact ⟨Or.inl rfl, by decide⟩
        · have hc : categoryOf a (normalizeText t) = "mixed" := by
            simp [categoryOf, List.isEmpty_eq_false.mpr hbE,
              List.isEmpty_eq_false.mpr hsE]
          rw [hc]
          exact ⟨Or.inr (Or.inr (Or.inl rfl)), by decide⟩
        · have hc : categoryOf a (normalizeText t) = "mixed" := by
            simp [categoryOf, List.isEmpty_eq_false.mpr hbE,
              List.isEmpty_eq_false.mpr hsE]
          rw [hc]
          exact ⟨Or.inr (Or.inr (Or.inl rfl)), by decide⟩

/-- C7: `analyze` is a total function; any input whose stripped,
lowercased form is empty — including whitespace-only and absent input —
yields a non-lead decision with category `none` whose reasons contain
`empty_message`. -/
theorem C7_empty_input (a : LeadAnalyzer) (t : Option String)
    (h : normalizeText (t.getD "") = []) :
    analyzeOpt a t = ⟨false, ["empty_message"], "none"⟩ ∧
    "empty_message" ∈ (analyzeOpt a t).reasons := by
  have he : analyzeOpt a t = ⟨false, ["empty_message"], "none"⟩ := by
    unfold analyzeOpt analyze
    simp [h]
  exact ⟨he, by rw [he]; simp⟩

/-! ## Witnesses -/

/-- Witness for C1: inserting (chat 100, message 1) into the empty table
and then inserting the same key with different field values. -/
theorem C1_duplicate_insert_witness :
    keyPresent [] sampleArgs1.chat_id sampleArgs1.message_id = false ∧
    sampleArgs2.chat_id = sampleArgs1.chat_id ∧
    sampleArgs2.message_id = sampleArgs1.message_id ∧
    ((insert_message [] sampleArgs1).1 = true ∧
     (insert_message (insert_message [] sampleArgs1).2 sampleArgs2).1 = false ∧
     (insert_message (insert_message [] sampleArgs1).2 sampleArgs2).2
       = (insert_message [] sampleArgs1).2 ∧
     lookupRow (insert_message [] sampleArgs1).2 sampleArgs1.chat_id
       sampleArgs1.message_id = some (rowOf sampleArgs1)) :=
  ⟨by decide, by decide, by decide,
   C1_duplicate_insert [] sampleArgs1 sampleArgs2 (by decide) (by decide)
     (by decide)⟩

/-- Witness for C8: two rows with distinct keys and identical text. -/
theorem C8_distinct_keys_witness :
    (sampleArgs1.chat_id ≠ sampleArgs3.chat_id ∨
     sampleArgs1.message_id ≠ sampleArgs3.message_id) ∧
    sampleArgs1.message_text = sampleArgs3.message_text ∧
    ((insert_message [] sampleArgs1).1 = true ∧
     (insert_message (insert_message [] sampleArgs1).2 sampleArgs3).1 = true ∧
     (insert_message (insert_message [] sampleArgs1).2 sampleArgs3).2
       = [] ++ [rowOf sampleArgs1, rowOf sampleArgs3] ∧
     (rowOf sampleArgs1).message_hash = (rowOf sampleArgs3).message_hash ∧
     (rowOf sampleArgs1).message_hash
       = sha256Hex (utf8Bytes (String.mk
           ((stripChars sampleArgs1.message_text.data).map lowerChar)))) :=
  ⟨by decide, by decide,
   C8_distinct_keys [] sampleArgs1 sampleArgs3 (by decide) (by decide)
     (by decide) (by decide)⟩

/-- Witness for C10: a configuration carrying both `" @my_leads_bot "`
and the numeric target 123456 resolves to the stripped handle. -/
theorem C10_resolve_target_witness :
    sampleNotification.target_bot_username = some " @my_leads_bot " ∧
    sampleNotification.target_telegram_id = some 123456 ∧
    resolve_notification_target sampleNotification
      = some (Sum.inr (String.mk (stripChars (" @my_leads_bot " : String).data))) :=
  ⟨by decide, by decide,
   (C10_resolve_target sampleNotification " @my_leads_bot " 123456 (by decide)
     (by decide) (by decide)).1⟩

/-- Witness for C2: a buy text with one detail signal scores exactly 3
and is accepted. -/
theorem C2_scoring_witness :
    normalizeText "куплю квартиру, район центр" ≠ [] ∧
    noIntentGate sampleAnalyzer (normalizeText "куплю квартиру, район центр")
      = false ∧
    insufficientGate sampleAnalyzer
      (normalizeText "куплю квартиру, район центр") = false ∧
    (((analyze sampleAnalyzer "куплю квартиру, район центр").is_lead = true ↔
      3 ≤ specScore sampleAnalyzer (normalizeText "куплю квартиру, район центр")) ∧
     "no_intent" ∉ (analyze sampleAnalyzer "куплю квартиру, район центр").reasons ∧
     "insufficient_details"
       ∉ (analyze sampleAnalyzer "куплю квартиру, район центр").reasons) :=
  ⟨by decide, by decide, by decide,
   C2_scoring sampleAnalyzer "куплю квартиру, район центр" (by decide)
     (by decide) (by decide)⟩

/-- Witness for C4: under a two-detail threshold, a one-detail text with
no contact is rejected with `insufficient_details`, and a two-detail
text with no contact passes gate 2. -/
theorem C4_gate2_boundary_witness :
    normalizeText "куплю квартиру, район центр" ≠ [] ∧
    noIntentGate strictAnalyzer (normalizeText "куплю квартиру, район центр")
      = false ∧
    ((detailsScore (normalizeText "куплю квартиру, район центр") : Int)
        < strictAnalyzer.min_details_required ∧
      hasContact (normalizeText "куплю квартиру, район центр") = false) ∧
    analyze strictAnalyzer "куплю квартиру, район центр"
      = ⟨false,
         reasonsOf strictAnalyzer (normalizeText "куплю квартиру, район центр")
           ++ ["insufficient_details"],
         categoryOf strictAnalyzer
           (normalizeText "куплю квартиру, район центр")⟩ ∧
    ((detailsScore (normalizeText "куплю квартиру за 5000000 руб, район тихий") : Int)
        = strictAnalyzer.min_details_required ∧
      hasContact (normalizeText "куплю квартиру за 5000000 руб, район тихий")
        = false) ∧
    analyze strictAnalyzer "куплю квартиру за 5000000 руб, район тихий"
      = ⟨decide (3 ≤ leadScore strictAnalyzer
           (normalizeText "куплю квартиру за 5000000 руб, район тихий")),
         reasonsOf strictAnalyzer
           (normalizeText "куплю квартиру за 5000000 руб, район тихий"),
         categoryOf strictAnalyzer
           (normalizeText "куплю квартиру за 5000000 руб, район тихий")⟩ :=
  ⟨by decide, by decide, by decide,
   (C4_gate2_boundary strictAnalyzer "куплю квартиру, район центр" (by decide)
     (by decide)).2.1 (by decide),
   by decide,
   (C4_gate2_boundary strictAnalyzer "куплю квартиру за 5000000 руб, район тихий"
     (by decide) (by decide)).1 (by decide)⟩

/-- Witness for C9: an accepted buy lead is categorized `buy`, not
`none`. -/
theorem C9_lead_never_uncategorized_witness :
    sampleAnalyzer.require_explicit_intent = true ∧
    (analyze sampleAnalyzer "куплю квартиру срочно, район центр").is_lead
      = true ∧
    (((analyze sampleAnalyzer "куплю квартиру срочно, район центр").category
        = "buy" ∨
      (analyze sampleAnalyzer "куплю квартиру срочно, район центр").category
        = "sell" ∨
      (analyze sampleAnalyzer "куплю квартиру срочно, район центр").category
        = "mixed" ∨
      (analyze sampleAnalyzer "куплю квартиру срочно, район центр").category
        = "realtor_help") ∧
     (analyze sampleAnalyzer "куплю квартиру срочно, район центр").category
       ≠ "none") :=
  ⟨by decide, by decide,
   C9_lead_never_uncategorized sampleAnalyzer "куплю квартиру срочно, район центр"
     (by decide) (by decide)⟩

/-- Witness for C5: a buy-only text is categorized `buy`. -/
theorem C5_category_resolution_witness :
    normalizeText "куплю дом" ≠ [] ∧
    (analyze sampleAnalyzer "куплю дом").category = "buy" :=
  ⟨by decide,
   (C5_category_resolution sampleAnalyzer "куплю дом" (by decide)).2.1
     ⟨by decide, by decide⟩⟩

/-- Witness for the amended C3: a keyword-free greeting is rejected with
`no_intent`. -/
theorem C3_no_intent_witness :
    sampleAnalyzer.require_explicit_intent = true ∧
    normalizeText "добрый день" ≠ [] ∧
    buyHits sampleAnalyzer (normalizeText "добрый день") = [] ∧
    sellHits sampleAnalyzer (normalizeText "добрый день") = [] ∧
    realtorHits sampleAnalyzer (normalizeText "добрый день") = [] ∧
    analyze sampleAnalyzer "добрый день"
      = ⟨false,
         reasonsOf sampleAnalyzer (normalizeText "добрый день") ++ ["no_intent"],
         categoryOf sampleAnalyzer (normalizeText "добрый день")⟩ :=
  ⟨by decide, by decide, by decide, by decide, by decide,
   C3_no_intent sampleAnalyzer "добрый день" (by decide) (by decide) (by decide)
     (by decide) (by decide)⟩

/-- Witness for the amended C6: the assembled reasons of a buy text. -/
theorem C6_reason_assembly_witness :
    normalizeText "куплю квартиру" ≠ [] ∧
    reasonsOf sampleAnalyzer (normalizeText "куплю квартиру")
      = amendedReasons sampleAnalyzer (normalizeText "куплю квартиру") :=
  ⟨by decide, C6_reason_assembly sampleAnalyzer "куплю квартиру" (by decide)⟩

/-- Witness for C7: an absent text and a whitespace-only text. -/
theorem C7_empty_input_witness :
    normalizeText ((none : Option String).getD "") = [] ∧
    normalizeText ((some "   ").getD "") = [] ∧
    analyzeOpt sampleAnalyzer none = ⟨false, ["empty_message"], "none"⟩ ∧
    analyzeOpt sampleAnalyzer (some "   ") = ⟨false, ["empty_message"], "none"⟩ :=
  ⟨by decide, by decide,
   (C7_empty_input sampleAnalyzer none (by decide)).1,
   (C7_empty_input sampleAnalyzer (some "   ") (by decide)).1⟩

end Rieltorbot
